import Mathlib

/-!
Shallow embedding of the filter-driven query orchestrator in
`src/frontend-next/src/app/page.tsx` (the `Page` component of the
global-sales dashboard), together with theorems settling the spec claims.

The numeric payload fields (`Sales`, `Profit`, ...) are `float` in the
source; the orchestration logic proved about here never computes on them,
it only moves payloads between slots, so they are embedded as `Int`.
-/

namespace GlobalSales

/-- The `MetaData` interface: `{categories: string[]; regions: string[]; years: number[]}`. -/
structure MetaData where
  categories : List String
  regions : List String
  years : List Int
deriving DecidableEq, Repr

/-- The `filters` state: same shape as `MetaData` (`useState` initial value is
three empty arrays). -/
structure Filters where
  categories : List String
  regions : List String
  years : List Int
deriving DecidableEq, Repr

/-- The `SummaryData` interface. -/
structure SummaryData where
  total_sales : Int
  total_profit : Int
  avg_order_value : Int
  orders : Int
deriving DecidableEq, Repr

/-- The `CategoryData` interface. -/
structure CategoryData where
  Category : String
  Sales : Int
  Profit : Int
deriving DecidableEq, Repr

/-- The `RegionData` interface. -/
structure RegionData where
  Region : String
  Sales : Int
deriving DecidableEq, Repr

/-- The `TrendRecord` interface. -/
structure TrendRecord where
  Month : String
  Sales : Int
deriving DecidableEq, Repr

/-- `TrendData = Record<string, TrendRecord[]>`, embedded as an association list
keyed by the year label. -/
abbrev TrendData := List (String × List TrendRecord)

/-- Insertion step of a JS `Set` built by iterating an array: an element is
added at the end unless already present. -/
def jsInsert {α : Type} [DecidableEq α] (acc : List α) (a : α) : List α :=
  if a ∈ acc then acc else acc ++ [a]

/-- `new Set(prev[key])`: iteration order of a JS `Set` is insertion order, so
building a set from an array deduplicates keeping first occurrences. -/
def jsDedup {α : Type} [DecidableEq α] (l : List α) : List α :=
  l.foldl jsInsert []

/-- `toggleItem(key, item)` from the source, on the selection list of one
dimension: build a `Set` from the previous array, delete `item` if present,
otherwise add it, and return `Array.from(set)`.  There is no check that `item`
belongs to the metadata of the dimension. -/
def toggleItemList {α : Type} [DecidableEq α] (item : α) (prev : List α) : List α :=
  if item ∈ jsDedup prev then (jsDedup prev).filter (fun x => x ≠ item)
  else jsDedup prev ++ [item]

/-- `toggleSelectAll(key)` from the source, on one dimension: `allSelected`
is `prev[key].length === meta[key].length`; if it holds the selection becomes
`[]`, otherwise a copy `[...meta[key]]` of the metadata list. -/
def toggleSelectAllList {α : Type} [DecidableEq α] (meta prev : List α) : List α :=
  if prev.length = meta.length then [] else meta

/-- One field of the request `body`: `filters.x.length ? filters.x : null`
(a JS number is falsy exactly when it is `0`). -/
def bodyField {α : Type} (sel : List α) : Option (List α) :=
  if sel.length = 0 then none else some sel

/-- The request `body` built in the filters `useEffect`. -/
structure QueryBody where
  categories : Option (List String)
  regions : Option (List String)
  years : Option (List Int)
deriving DecidableEq, Repr

/-- `const body = {categories: ..., regions: ..., years: ...}` from the source. -/
def buildBody (f : Filters) : QueryBody :=
  { categories := bodyField f.categories
    regions := bodyField f.regions
    years := bodyField f.years }

/-- Modelled from the spec (section 6): a `null` request field means "no
restriction on this dimension", an explicit list restricts to its members.
This is the service-side meaning of a predicate field, used only to compare
the two predicate values of claim C4 semantically. -/
def specFieldMatches {α : Type} [DecidableEq α] (f : Option (List α)) (v : α) : Bool :=
  match f with
  | none => true
  | some l => decide (v ∈ l)

/-- The four aggregation endpoints posted to by the filters `useEffect`. -/
inductive Endpoint where
  | summary
  | category
  | region
  | trend
deriving DecidableEq, Repr

/-- One outstanding request: endpoint, dispatch round, and body.  The source
attaches no generation to a request; `generation` is instrumentation numbering
the run of the filters `useEffect` that fired the request (the QueryGeneration
of the spec), so that cross-generation claims can be stated. -/
structure Request where
  endpoint : Endpoint
  generation : Nat
  body : QueryBody
deriving DecidableEq, Repr

/-- A JS value read from the `data` field of a response body.  `falsy` is
`undefined`/`null`/`0`/`""`/`false` (a missing field reads as `undefined`);
`ok` is a value of the expected shape; `junk` is a present but malformed
TRUTHY value of some other shape, carried abstractly by a tag.  The `||`
defaulting of the source replaces only `falsy`; a `junk` value passes
through untouched. -/
inductive JsData (α : Type) where
  | falsy
  | ok (a : α)
  | junk (tag : String)
deriving DecidableEq, Repr

/-- `x || d` on a data field: a falsy left operand is replaced by the
default, any truthy value (well formed or junk) is kept as is. -/
def jsOrElse {α : Type} (x : JsData α) (d : JsData α) : JsData α :=
  match x with
  | .falsy => d
  | .ok a => .ok a
  | .junk t => .junk t

/-- The view-state half of the component state: the four result slots and the
`loading` flag, exactly the `useState` slots of the source.  The category,
region and trend slots are written by `set...(r.data.data || ...)`, which can
store a raw malformed truthy value, so they hold a `JsData`.  The `...Gen`
fields are instrumentation (ghost state): they record the generation of the
response that last wrote each slot and are never read by any transition. -/
structure ViewState where
  summary : Option SummaryData
  catData : JsData (List CategoryData)
  regData : JsData (List RegionData)
  trendData : JsData TrendData
  loading : Bool
  summaryGen : Nat
  catGen : Nat
  regGen : Nat
  trendGen : Nat
deriving DecidableEq, Repr

/-- The `Page` component state: metadata, filters, view state, plus the
instrumentation counter `nextGen` numbering runs of the filters `useEffect`. -/
structure PageState where
  meta : MetaData
  filters : Filters
  view : ViewState
  nextGen : Nat
deriving DecidableEq, Repr

/-- Component state plus the set of in-flight requests (fired but not yet
settled).  The event loop is single threaded: each transition below is one
synchronous handler run. -/
structure Sys where
  page : PageState
  pending : List Request
deriving DecidableEq, Repr

/-- The initial state: all `useState` initial values (`meta` and `filters`
empty, slots `null`/`[]`/`{}`, `loading` false), nothing pending. -/
def initialSys : Sys :=
  { page :=
      { meta := ⟨[], [], []⟩
        filters := ⟨[], [], []⟩
        view :=
          { summary := none
            catData := .ok []
            regData := .ok []
            trendData := .ok []
            loading := false
            summaryGen := 0
            catGen := 0
            regGen := 0
            trendGen := 0 }
        nextGen := 0 }
    pending := [] }

/-- The synchronous body of the filters `useEffect`:
`if (!filters.categories.length) return;` then `setLoading(true)`, four
`axios.post` calls are fired (their handlers run later), then
`setLoading(false)` — so at the end of the handler the flag is already false
while all four requests are still outstanding. -/
def runFiltersEffect (s : Sys) : Sys :=
  if s.page.filters.categories.length = 0 then s
  else
    let g := s.page.nextGen
    let body := buildBody s.page.filters
    { page :=
        { s.page with
          view := { s.page.view with loading := false }
          nextGen := g + 1 }
      pending := s.pending ++
        [⟨.summary, g, body⟩, ⟨.category, g, body⟩, ⟨.region, g, body⟩, ⟨.trend, g, body⟩] }

/-- The metadata `useEffect` success handler: `setMeta(res.data)` then
`setFilters({categories: res.data.categories, ...})`. -/
def applyMetaSuccess (s : Sys) (d : MetaData) : Sys :=
  { s with page :=
      { s.page with
        meta := d
        filters := ⟨d.categories, d.regions, d.years⟩ } }

/-- A user click on the checkbox of `item` in dimension `key`: `toggleItem`
from the source, lifted to the whole `filters` record. -/
inductive Dim where
  | categories
  | regions
  | years
deriving DecidableEq, Repr

/-- `toggleItem` on the `filters` record; the toggled value is a string for
`categories`/`regions` and an integer for `years`, carried as a sum. -/
def toggleItemFilters (d : Dim) (item : String ⊕ Int) (f : Filters) : Filters :=
  match d, item with
  | .categories, .inl v => { f with categories := toggleItemList v f.categories }
  | .regions, .inl v => { f with regions := toggleItemList v f.regions }
  | .years, .inr v => { f with years := toggleItemList v f.years }
  | _, _ => f

/-- `toggleSelectAll` on the `filters` record, reading the metadata of the
same dimension. -/
def toggleSelectAllFilters (d : Dim) (m : MetaData) (f : Filters) : Filters :=
  match d with
  | .categories => { f with categories := toggleSelectAllList m.categories f.categories }
  | .regions => { f with regions := toggleSelectAllList m.regions f.regions }
  | .years => { f with years := toggleSelectAllList m.years f.years }

/-- Remove the first pending request matching an endpoint and generation
(the request whose handler is being run). -/
def removeReq (e : Endpoint) (g : Nat) : List Request → List Request
  | [] => []
  | r :: rest =>
      if r.endpoint = e ∧ r.generation = g then rest
      else r :: removeReq e g rest

/-- A network completion delivered to the event loop: success payloads are the
`r.data` (for summary) or the `r.data.data` field (for the other three, a
`JsData`: possibly absent/falsy, possibly a malformed truthy value), failures
carry only which request failed. -/
inductive NetEvent where
  | summaryOk (g : Nat) (d : SummaryData)
  | categoryOk (g : Nat) (d : JsData (List CategoryData))
  | regionOk (g : Nat) (d : JsData (List RegionData))
  | trendOk (g : Nat) (d : JsData TrendData)
  | requestFail (e : Endpoint) (g : Nat)
deriving DecidableEq, Repr

/-- The response handlers of the four posts, exactly as in the source:
`setSummary(r.data)`, `setCatData(r.data.data || [])`,
`setRegData(r.data.data || [])`, `setTrendData(r.data.data || {})`, and
`.catch(() => {})` which leaves all state untouched.  The `||` defaulting
replaces only a falsy data field; a malformed truthy one is stored raw.  No
handler inspects any generation; the `...Gen` ghost fields just record who
wrote last. -/
def applyEvent (s : Sys) (e : NetEvent) : Sys :=
  match e with
  | .summaryOk g d =>
      { page := { s.page with view := { s.page.view with summary := some d, summaryGen := g } }
        pending := removeReq .summary g s.pending }
  | .categoryOk g d =>
      { page := { s.page with view :=
          { s.page.view with catData := jsOrElse d (.ok []), catGen := g } }
        pending := removeReq .category g s.pending }
  | .regionOk g d =>
      { page := { s.page with view :=
          { s.page.view with regData := jsOrElse d (.ok []), regGen := g } }
        pending := removeReq .region g s.pending }
  | .trendOk g d =>
      { page := { s.page with view :=
          { s.page.view with trendData := jsOrElse d (.ok []), trendGen := g } }
        pending := removeReq .trend g s.pending }
  | .requestFail ep g =>
      { page := s.page
        pending := removeReq ep g s.pending }

/-- The category chart render reads `catData.map((d) => d.Category)`: defined
when the slot actually holds an array; on a raw non-array slot value the
`.map` call throws a TypeError, modelled as `none`. -/
def renderCatXs : JsData (List CategoryData) → Option (List String)
  | .ok l => some (l.map (fun d => d.Category))
  | _ => none

/-! ## Helper lemmas on the filter model -/

theorem mem_foldl_jsInsert {α : Type} [DecidableEq α] (l : List α) (acc : List α) (x : α) :
    x ∈ l.foldl jsInsert acc ↔ x ∈ acc ∨ x ∈ l := by
  induction l generalizing acc with
  | nil => simp
  | cons a t ih =>
      rw [List.foldl_cons, ih]
      unfold jsInsert
      by_cases h : a ∈ acc
      · rw [if_pos h]
        simp only [List.mem_cons]
        constructor
        · rintro (hx | hx)
          · exact Or.inl hx
          · exact Or.inr (Or.inr hx)
        · rintro (hx | hx | hx)
          · exact Or.inl hx
          · exact Or.inl (hx ▸ h)
          · exact Or.inr hx
      · rw [if_neg h]
        simp only [List.mem_append, List.mem_singleton, List.mem_cons]
        tauto

theorem mem_jsDedup {α : Type} [DecidableEq α] (l : List α) (x : α) :
    x ∈ jsDedup l ↔ x ∈ l := by
  unfold jsDedup
  rw [mem_foldl_jsInsert]
  simp

theorem mem_toggleItemList {α : Type} [DecidableEq α] (v : α) (s : List α) (x : α) :
    x ∈ toggleItemList v s ↔ (x ∈ s ↔ x ≠ v) := by
  unfold toggleItemList
  by_cases hv : v ∈ jsDedup s
  · rw [if_pos hv, List.mem_filter, mem_jsDedup]
    rw [mem_jsDedup] at hv
    simp only [decide_eq_true_eq]
    constructor
    · rintro ⟨hxs, hxv⟩
      exact ⟨fun _ => hxv, fun _ => hxs⟩
    · intro h
      by_cases hx : x = v
      · subst hx
        exact absurd rfl (h.mp hv)
      · exact ⟨h.mpr hx, hx⟩
  · rw [if_neg hv, List.mem_append, List.mem_singleton, mem_jsDedup]
    rw [mem_jsDedup] at hv
    by_cases hx : x = v
    · subst hx
      simp [hv]
    · simp [hx]

theorem toggleItemList_twice_mem {α : Type} [DecidableEq α] (v x : α) (s : List α) :
    x ∈ toggleItemList v (toggleItemList v s) ↔ x ∈ s := by
  rw [mem_toggleItemList, mem_toggleItemList]
  by_cases hx : x = v <;> by_cases hs : x ∈ s <;> simp [hx, hs]

/-! ## Claims about the filter model -/

/-- Claim C4, counterexample: with MetadataSet categories = ["A"], the body
built from the full selection has `categories = some ["A"]` while the body
built from the empty selection has `categories = none`; the two predicate
values differ, and the full one is not null.  The claim that both yield the
same value (null) is false on the code. -/
theorem c4_counterexample :
    (buildBody ⟨(MetaData.mk ["A"] ["East"] [2022]).categories, ["East"], [2022]⟩).categories ≠
      (buildBody ⟨[], ["East"], [2022]⟩).categories ∧
    (buildBody ⟨[], ["East"], [2022]⟩).categories = none ∧
    (buildBody ⟨(MetaData.mk ["A"] ["East"] [2022]).categories, ["East"], [2022]⟩).categories =
      some ["A"] := by
  decide

/-- Claim C4, amended: for any dimension, the empty selection maps to null
(unrestricted) while a full selection maps to the explicit full value list —
the two predicate VALUES differ — but the two are semantically equivalent
restrictions: every value of the MetadataSet of that dimension satisfies
both (null matches everything, the full list contains every value). -/
theorem c4_amended_wildcard {α : Type} [DecidableEq α] (m : List α) (v : α)
    (hm : m ≠ []) (hv : v ∈ m) :
    bodyField ([] : List α) = none ∧
    bodyField m = some m ∧
    specFieldMatches (bodyField ([] : List α)) v = true ∧
    specFieldMatches (bodyField m) v = true := by
  have hlen : ¬ m.length = 0 := by
    simpa [List.length_eq_zero] using hm
  refine ⟨rfl, ?_, rfl, ?_⟩
  · unfold bodyField
    rw [if_neg hlen]
  · unfold specFieldMatches bodyField
    rw [if_neg hlen]
    simpa using hv

/-- Witness for C4 at MetadataSet value list ["A"] and value "A". -/
theorem c4_witness :
    bodyField ([] : List String) = none ∧
    bodyField ["A"] = some ["A"] ∧
    specFieldMatches (bodyField ([] : List String)) "A" = true ∧
    specFieldMatches (bodyField ["A"]) "A" = true :=
  c4_amended_wildcard ["A"] "A" (by decide) (by decide)

/-- Claim C5, counterexample: with MetadataSet categories = ["A"], the value
"B" does not belong to the metadata of the dimension, yet
toggleItem(categories, "B") on the empty selection is not a no-op: it adds
"B" to the selection.  The source function never consults the metadata. -/
theorem c5_counterexample :
    "B" ∉ (MetaData.mk ["A"] ["East"] [2022]).categories ∧
    toggleItemFilters .categories (.inl "B") ⟨[], [], []⟩ ≠ (⟨[], [], []⟩ : Filters) := by
  decide

/-- Claim C5, amended: toggleItem performs the symmetric difference of the
singleton with the current selection unconditionally — there is no metadata
membership check, so for a value outside MetadataSet it inserts the value
rather than being a no-op.  Stated as the membership characterisation of the
result: x is in the toggled selection iff (x was selected iff x is not the
toggled value). -/
theorem c5_amended_toggleItem_symmdiff {α : Type} [DecidableEq α] (v : α) (s : List α) (x : α) :
    x ∈ toggleItemList v s ↔ (x ∈ s ↔ x ≠ v) :=
  mem_toggleItemList v s x

/-- Claim C6, counterexample: with MetadataSet values ["A","B"] for a
dimension and current selection ["A"] (a proper nonempty subset), applying
toggleSelectAll twice gives full then empty: the value "A" of the original
selection is gone, so the selection is not restored (even as a set). -/
theorem c6_counterexample :
    "A" ∈ (["A"] : List String) ∧
    "A" ∉ toggleSelectAllList ["A", "B"] (toggleSelectAllList ["A", "B"] ["A"]) := by
  decide

/-- Claim C6, amended: toggleSelectAll applied twice (MetadataSet unchanged)
returns the selection to its original state as a set, provided the original
selection is empty or selects all of MetadataSet (same cardinality, subset,
no duplicates).  When the selection is a proper nonempty subset, the two
applications instead yield full then empty. -/
theorem c6_amended_selectAll_involutive {α : Type} [DecidableEq α] (m s : List α)
    (h : s = [] ∨ (s.Nodup ∧ m.Nodup ∧ s ⊆ m ∧ s.length = m.length)) (x : α) :
    x ∈ toggleSelectAllList m (toggleSelectAllList m s) ↔ x ∈ s := by
  rcases h with h | ⟨hs, hm, hsub, hlen⟩
  · subst h
    by_cases hm0 : m.length = 0
    · have hmnil : m = [] := List.length_eq_zero.mp hm0
      subst hmnil
      simp [toggleSelectAllList]
    · have h1 : toggleSelectAllList m [] = m := by
        unfold toggleSelectAllList
        rw [if_neg]
        intro hh
        exact hm0 (by simpa using hh.symm)
      have h2 : toggleSelectAllList m m = [] := by
        unfold toggleSelectAllList
        rw [if_pos rfl]
      rw [h1, h2]
  · have h1 : toggleSelectAllList m s = [] := by
      unfold toggleSelectAllList
      rw [if_pos hlen]
    rw [h1]
    by_cases hm0 : m.length = 0
    · have hmnil : m = [] := List.length_eq_zero.mp hm0
      have hsnil : s = [] := List.length_eq_zero.mp (hlen.trans hm0)
      subst hmnil
      subst hsnil
      simp [toggleSelectAllList]
    · have h2 : toggleSelectAllList m [] = m := by
        unfold toggleSelectAllList
        rw [if_neg]
        intro hh
        exact hm0 (by simpa using hh.symm)
      rw [h2]
      have hcards : s.toFinset.card = s.length := by
        rw [List.card_toFinset, hs.dedup]
      have hcardm : m.toFinset.card = m.length := by
        rw [List.card_toFinset, hm.dedup]
      have hsubF : s.toFinset ⊆ m.toFinset := by
        intro a ha
        exact List.mem_toFinset.mpr (hsub (List.mem_toFinset.mp ha))
      have hEq : s.toFinset = m.toFinset := by
        refine Finset.eq_of_subset_of_card_le hsubF ?_
        rw [hcards, hcardm, hlen]
      constructor
      · intro hxm
        have : x ∈ m.toFinset := List.mem_toFinset.mpr hxm
        rw [← hEq] at this
        exact List.mem_toFinset.mp this
      · intro hxs
        exact hsub hxs

/-- Witness for C6: MetadataSet values ["B","A"], selection ["A","B"]
(all values selected, in a different order); two applications give empty
then full, which holds the member "A" exactly as the original did. -/
theorem c6_witness :
    "A" ∈ toggleSelectAllList ["B", "A"] (toggleSelectAllList ["B", "A"] ["A", "B"]) ↔
      "A" ∈ (["A", "B"] : List String) :=
  c6_amended_selectAll_involutive ["B", "A"] ["A", "B"]
    (Or.inr ⟨by decide, by decide, by decide, by decide⟩) "A"

/-- Claim C7: toggleItem applied twice in succession (same dimension, same
value) returns FilterSelection, viewed as a set per dimension, to its
original state, for every dimension and every value. -/
theorem c7_toggleItem_twice_restores (d : Dim) (item : String ⊕ Int) (f : Filters)
    (x : String) (y : Int) :
    (x ∈ (toggleItemFilters d item (toggleItemFilters d item f)).categories ↔
       x ∈ f.categories) ∧
    (x ∈ (toggleItemFilters d item (toggleItemFilters d item f)).regions ↔
       x ∈ f.regions) ∧
    (y ∈ (toggleItemFilters d item (toggleItemFilters d item f)).years ↔
       y ∈ f.years) := by
  cases d with
  | categories =>
      rcases item with v | v
      · exact ⟨toggleItemList_twice_mem v x f.categories, Iff.rfl, Iff.rfl⟩
      · exact ⟨Iff.rfl, Iff.rfl, Iff.rfl⟩
  | regions =>
      rcases item with v | v
      · exact ⟨Iff.rfl, toggleItemList_twice_mem v x f.regions, Iff.rfl⟩
      · exact ⟨Iff.rfl, Iff.rfl, Iff.rfl⟩
  | years =>
      rcases item with v | v
      · exact ⟨Iff.rfl, Iff.rfl, Iff.rfl⟩
      · exact ⟨Iff.rfl, Iff.rfl, toggleItemList_twice_mem v y f.years⟩

/-- Claim C10: toggleSelectAll tests cardinality, not membership.  The result
depends only on the length of the current selection: two selections of equal
length are treated identically; a selection whose length equals the length of
the MetadataSet list is cleared to empty (even when its members differ from
the MetadataSet members); any other selection is replaced by the full
MetadataSet list. -/
theorem c10_selectAll_cardinality_only {α : Type} [DecidableEq α] (m s1 s2 : List α) :
    (s1.length = s2.length → toggleSelectAllList m s1 = toggleSelectAllList m s2) ∧
    (s1.length = m.length → toggleSelectAllList m s1 = []) ∧
    (s1.length ≠ m.length → toggleSelectAllList m s1 = m) := by
  unfold toggleSelectAllList
  refine ⟨fun h => by rw [h], fun h => by rw [if_pos h], fun h => by rw [if_neg h]⟩

/-- Witness for C10: selection ["X","Y"] shares no member with MetadataSet
values ["A","B"] but has the same length, and is cleared to empty. -/
theorem c10_witness :
    toggleSelectAllList ["A", "B"] ["X", "Y"] = ([] : List String) :=
  (c10_selectAll_cardinality_only ["A", "B"] ["X", "Y"] []).2.1 (by decide)

/-! ## Claims about dispatch and reconciliation

Concrete states used by the counterexample traces. -/

/-- State after the metadata bootstrap succeeded with two categories, two
regions and two years (the scenario of the spec, section 8). -/
def bootState : Sys :=
  applyMetaSuccess initialSys ⟨["A", "B"], ["East", "West"], [2022, 2023]⟩

/-- Generation 0 dispatched: the filters effect ran on the initial full
selection. -/
def c1state1 : Sys := runFiltersEffect bootState

/-- The user toggles category "A" off, and the filters effect runs again:
generation 1 dispatched while the generation 0 requests are still pending. -/
def c1state2 : Sys :=
  runFiltersEffect
    { c1state1 with
      page :=
        { c1state1.page with
          filters := toggleItemFilters .categories (.inl "A") c1state1.page.filters } }

/-- A category row of the generation 1 response. -/
def c1rowNew : CategoryData := ⟨"B", 10, 1⟩

/-- A category row of the stale generation 0 response. -/
def c1rowOld : CategoryData := ⟨"A", 20, 2⟩

/-- The generation 1 category response has arrived: the category slot holds
the generation 1 data. -/
def c1state3 : Sys := applyEvent c1state2 (.categoryOk 1 (.ok [c1rowNew]))

/-- Claim C1, counterexample: the category slot holds generation 1 data, and
then the stale generation 0 response arrives (0 < 1).  The source handler
`setCatData(r.data.data || [])` runs unconditionally, so the slot data
CHANGES: the stale response is not discarded. -/
theorem c1_counterexample :
    c1state3.page.view.catGen = 1 ∧
    c1state3.page.view.catData = .ok [c1rowNew] ∧
    (applyEvent c1state3 (.categoryOk 0 (.ok [c1rowOld]))).page.view.catData ≠
      c1state3.page.view.catData := by
  decide

/-- Claim C1, amended: processing a response always overwrites the slot with
the payload of that response, regardless of generation — in particular even
when the generation of the response is strictly below the generation held by
the slot (last arrival wins; nothing is discarded).  Stated for all four
slots. -/
theorem c1_amended_last_arrival_wins (s : Sys) (g : Nat) (ds : SummaryData)
    (dc : List CategoryData) (dr : List RegionData) (dt : TrendData)
    (_hsum : g < s.page.view.summaryGen) (_hcat : g < s.page.view.catGen)
    (_hreg : g < s.page.view.regGen) (_htr : g < s.page.view.trendGen) :
    (applyEvent s (.summaryOk g ds)).page.view.summary = some ds ∧
    (applyEvent s (.categoryOk g (.ok dc))).page.view.catData = .ok dc ∧
    (applyEvent s (.regionOk g (.ok dr))).page.view.regData = .ok dr ∧
    (applyEvent s (.trendOk g (.ok dt))).page.view.trendData = .ok dt :=
  ⟨rfl, rfl, rfl, rfl⟩

/-- A state whose four slots all hold generation 1 data, for the C1 witness. -/
def c1staleState : Sys :=
  { initialSys with
    page :=
      { initialSys.page with
        view :=
          { initialSys.page.view with
            summaryGen := 1, catGen := 1, regGen := 1, trendGen := 1 } } }

/-- Witness for C1: stale generation 0 responses overwrite all four
generation 1 slots. -/
theorem c1_witness :
    (applyEvent c1staleState (.summaryOk 0 ⟨1, 2, 3, 4⟩)).page.view.summary =
      some ⟨1, 2, 3, 4⟩ ∧
    (applyEvent c1staleState (.categoryOk 0 (.ok [c1rowOld]))).page.view.catData =
      .ok [c1rowOld] ∧
    (applyEvent c1staleState (.regionOk 0 (.ok [⟨"East", 5⟩]))).page.view.regData =
      .ok [⟨"East", 5⟩] ∧
    (applyEvent c1staleState (.trendOk 0 (.ok []))).page.view.trendData = .ok [] :=
  c1_amended_last_arrival_wins c1staleState 0 ⟨1, 2, 3, 4⟩ [c1rowOld] [⟨"East", 5⟩] []
    (by decide) (by decide) (by decide) (by decide)

/-- Claim C2: the filters effect calls `setLoading(true)`, fires the four
posts, and then calls `setLoading(false)` synchronously in the same handler
run — it does not wait for the group to settle.  At the end of the dispatch
the flag is already false while all four requests of the group are still
outstanding, contradicting the claim that the flag is cleared only once the
last of the four settles.  Evaluated on a concrete dispatching state (the
state right after the metadata bootstrap of the spec scenario). -/
theorem c2_loading_cleared_at_dispatch :
    (runFiltersEffect bootState).page.view.loading = false ∧
    (runFiltersEffect bootState).pending.length = 4 ∧
    (runFiltersEffect bootState).pending.all (fun r => r.generation = 0) = true := by
  decide

/-- A state with populated metadata but an empty categories selection and a
nonempty regions and years selection (the user unselected all categories). -/
def c3state : Sys :=
  { page :=
      { meta := ⟨["A"], ["East"], [2022]⟩
        filters := ⟨[], ["East"], [2022]⟩
        view := initialSys.page.view
        nextGen := 5 }
    pending := [] }

/-- Claim C3, counterexample: metadata is populated, yet a filters effect run
in `c3state` dispatches nothing — the state is returned unchanged, because
the guard `if (!filters.categories.length) return;` only inspects the
categories selection.  The claim that every metadata-populated state
dispatches all four requests is false. -/
theorem c3_counterexample :
    c3state.page.meta.categories ≠ [] ∧
    runFiltersEffect c3state = c3state := by
  decide

/-- Claim C3, amended: the dispatch guard tests only whether the categories
selection is empty — independent of the other two dimensions and of whether
MetadataSet is populated.  An empty categories selection skips the effect
entirely; a nonempty one dispatches exactly four requests. -/
theorem c3_amended_guard (s : Sys) :
    (s.page.filters.categories = [] → runFiltersEffect s = s) ∧
    (s.page.filters.categories ≠ [] →
      (runFiltersEffect s).pending.length = s.pending.length + 4) := by
  constructor
  · intro h
    unfold runFiltersEffect
    rw [if_pos (by simp [h])]
  · intro h
    unfold runFiltersEffect
    rw [if_neg (by simpa [List.length_eq_zero] using h)]
    simp

/-- A dispatching state for the C3 witness: metadata populated and all three
selections nonempty. -/
def c3state2 : Sys := applyMetaSuccess initialSys ⟨["A"], ["East"], [2022]⟩

/-- Witness for C3: on a state with a nonempty categories selection the
effect adds exactly four pending requests. -/
theorem c3_witness :
    (runFiltersEffect c3state2).pending.length = c3state2.pending.length + 4 :=
  (c3_amended_guard c3state2).2 (by decide)

/-- Claim C8: within one generation, if the region request fails while the
summary, category and trend requests succeed, the region slot keeps its
previous value (the failure handler `.catch(() => {})` touches nothing) and
the other three slots hold the new responses. -/
theorem c8_region_failure_isolated (s : Sys) (g : Nat) (ds : SummaryData)
    (dc : List CategoryData) (dt : TrendData) :
    ((applyEvent (applyEvent (applyEvent (applyEvent s
        (.summaryOk g ds)) (.categoryOk g (.ok dc))) (.requestFail .region g))
        (.trendOk g (.ok dt))).page.view.regData = s.page.view.regData) ∧
    ((applyEvent (applyEvent (applyEvent (applyEvent s
        (.summaryOk g ds)) (.categoryOk g (.ok dc))) (.requestFail .region g))
        (.trendOk g (.ok dt))).page.view.summary = some ds) ∧
    ((applyEvent (applyEvent (applyEvent (applyEvent s
        (.summaryOk g ds)) (.categoryOk g (.ok dc))) (.requestFail .region g))
        (.trendOk g (.ok dt))).page.view.catData = .ok dc) ∧
    ((applyEvent (applyEvent (applyEvent (applyEvent s
        (.summaryOk g ds)) (.categoryOk g (.ok dc))) (.requestFail .region g))
        (.trendOk g (.ok dt))).page.view.trendData = .ok dt) :=
  ⟨rfl, rfl, rfl, rfl⟩

/-- Claim C9, counterexample: a category response with a present but
malformed TRUTHY `data` field. `r.data.data || []` keeps any truthy value,
so the raw malformed value is stored in the slot — the slot is NOT set to the
empty sequence, it is left in an invalid state, and the subsequent render
(`catData.map`) throws. -/
theorem c9_counterexample :
    (applyEvent initialSys (.categoryOk 0 (.junk "garbage"))).page.view.catData =
      .junk "garbage" ∧
    (applyEvent initialSys (.categoryOk 0 (.junk "garbage"))).page.view.catData ≠
      .ok [] ∧
    renderCatXs (applyEvent initialSys
      (.categoryOk 0 (.junk "garbage"))).page.view.catData = none := by
  decide

/-- Claim C9, amended: only a MISSING or otherwise falsy `data` field is
treated as empty data for the category, region and trend slots (the `||`
defaulting); a present but malformed truthy `data` field is stored raw in
the slot — an invalid slot state on which the category render throws — for
every prior state and generation. -/
theorem c9_amended_falsy_only_defaulting (s : Sys) (g : Nat) (t : String) :
    (applyEvent s (.categoryOk g .falsy)).page.view.catData = .ok [] ∧
    (applyEvent s (.regionOk g .falsy)).page.view.regData = .ok [] ∧
    (applyEvent s (.trendOk g .falsy)).page.view.trendData = .ok [] ∧
    (applyEvent s (.categoryOk g (.junk t))).page.view.catData = .junk t ∧
    renderCatXs (applyEvent s (.categoryOk g (.junk t))).page.view.catData = none ∧
    (applyEvent s (.regionOk g (.junk t))).page.view.regData = .junk t ∧
    (applyEvent s (.trendOk g (.junk t))).page.view.trendData = .junk t :=
  ⟨rfl, rfl, rfl, rfl, rfl, rfl, rfl⟩

end GlobalSales
